import Mathlib

/-!
Shallow embedding of the live capture-and-stream analysis orchestrator of
IntelliVision-AI (client/src/pages/LiveCamera.jsx).  The source file holds two
revisions of the LiveCamera component:

* the WebSocket revision: `startCamera` opens a `WebSocket` to
  `/ws/live-caption`, `socket.onopen` starts a 2000 ms `setInterval` driving
  `captureAndAnalyze`, and `socket.onmessage` reconciles inbound results;
* the on-demand revision: a button-driven `captureAndAnalyze` posts one frame
  to `/process-frame` and applies the JSON response to the result state.

React state hooks become fields of an explicit state record; `setX(v)` becomes
a functional update of that field.  Effects on the outside world (sending a
frame, acquiring the device, stopping media tracks, closing the socket) are
returned as explicit lists of emitted messages / actions.  JavaScript numbers
are modelled as `ℚ`, JS truthiness of strings and numbers is modelled
explicitly (`""` and `0` are falsy).
-/

namespace IntelliVision

/-- Analysis mode; the MODES list of the source limits the wire value to these
three strings. -/
inductive Mode
  | surveillance
  | assistive
  | self_driving
deriving DecidableEq

/-- Wire encoding of a mode, the `value` field of the MODES entries. -/
def Mode.toWire : Mode → String
  | .surveillance => "surveillance"
  | .assistive => "assistive"
  | .self_driving => "self_driving"

/-- JS truthiness of an optional string field: absent and the empty string are
falsy. -/
def truthyStr : Option String → Bool
  | none => false
  | some t => t != ""

/-- One detection object as delivered by the backend and stored in the
`detections` state (fields read by the render code of both revisions). -/
structure Detection where
  label : String
  confidence : ℚ
  direction : String
  vertical_zone : String
  distance : String
  priority_level : String
  urgency : Bool
  alert : String
deriving DecidableEq

/-- The `timing_ms` object of an inbound payload. -/
structure Timing where
  total_ms : ℚ
  avg_fps : Option ℚ
deriving DecidableEq

/-- `WebSocket.readyState` values. -/
inductive ReadyState
  | connecting
  | opened
  | closing
  | closed
deriving DecidableEq

/-- The socket object held in `socketRef` (only `readyState` is inspected by
the tick guard). -/
structure Socket where
  readyState : ReadyState
deriving DecidableEq

/-- The video element held in `videoRef`: only its intrinsic dimensions are
read by `captureAndAnalyze`. -/
structure Video where
  videoWidth : ℚ
  videoHeight : ℚ
deriving DecidableEq

/-- The hidden canvas held in `canvasRef`; `captureAndAnalyze` mutates its
width and height before drawing. -/
structure Canvas where
  width : ℚ
  height : ℚ
deriving DecidableEq

/-- The encoded still produced by `toDataURL('image/jpeg', 0.8)` (WebSocket
revision): the base64 payload is abstracted to the drawing parameters that
determine it. -/
structure EncodedFrame where
  width : ℚ
  height : ℚ
  format : String
  quality : ℚ
deriving DecidableEq

/-- The outgoing wire message of the WebSocket revision:
`JSON.stringify({ frame, mode })`. -/
structure OutMessage where
  frame : EncodedFrame
  mode : String
deriving DecidableEq

/-- An inbound `socket.onmessage` payload (WebSocket revision).  Fields the
handler reads are optional (absent ⇒ the `??` default applies).  A `mode` tag,
when the backend includes one, is carried but never read by the handler. -/
structure InMessage where
  error : Option String
  mode : Option String
  detections : Option (List Detection)
  navigation : Option String
  safe_ratio : Option ℚ
  summary : Option String
  timing_ms : Option Timing
deriving DecidableEq

/-- The full React state of the WebSocket revision of LiveCamera, hooks and
refs together.  `capturedMode` models the stale closure: `captureAndAnalyze`
is built with `useCallback(..., [])`, so the `mode` it reads is the value
bound at the render that created the callback (the initial render), not the
current `mode` state. -/
structure WSState where
  isCameraActive : Bool
  isLoading : Bool
  isAnalyzing : Bool
  camError : Option String
  mode : Mode
  capturedMode : Mode
  detections : List Detection
  navigation : String
  safeRatio : ℚ
  sceneDescription : String
  timingMs : Option Timing
  fps : Option ℚ
  resultKey : Nat
  videoRef : Option Video
  canvasRef : Option Canvas
  streamRef : Option Nat
  socketRef : Option Socket
  captureIntervalRef : Option Nat
deriving DecidableEq

/-- Initial state of the component: the `useState` initialisers of the source,
with all refs null.  The callback closure is created at this render, so
`capturedMode` equals the initial mode. -/
def initialWSState : WSState where
  isCameraActive := false
  isLoading := false
  isAnalyzing := false
  camError := none
  mode := .surveillance
  capturedMode := .surveillance
  detections := []
  navigation := ""
  safeRatio := 0
  sceneDescription := ""
  timingMs := none
  fps := none
  resultKey := 0
  videoRef := none
  canvasRef := none
  streamRef := none
  socketRef := none
  captureIntervalRef := none

/-- The mode-pill click handler: `onClick={() => setMode(m.value)}`.  It
updates the `mode` state only; the memoised tick callback keeps its captured
binding. -/
def setMode (m : Mode) (s : WSState) : WSState := { s with mode := m }

/-- Capture cadence installed by `socket.onopen`:
`setInterval(() => captureAndAnalyze(), 2000)`. -/
def CAPTURE_INTERVAL_MS : Nat := 2000

/-- `socket.onopen`: stores the interval handle (modelled by its period). -/
def socketOnOpen (s : WSState) : WSState :=
  { s with captureIntervalRef := some CAPTURE_INTERVAL_MS }

/-- Whether the tick guard `socketRef.current?.readyState === WebSocket.OPEN`
passes. -/
def channelOpen (s : WSState) : Bool :=
  match s.socketRef with
  | some sock => sock.readyState == .opened
  | none => false

/-- Target height of the analysis frame in the WebSocket revision. -/
def targetHeight : ℚ := 480

/-- One sampler tick of the WebSocket revision (`captureAndAnalyze`,
`useCallback` with empty deps).  Guards: refs present, socket open.  Then the
in-flight flag is set, the canvas is resized to `targetHeight` preserving the
video's aspect ratio, the frame is encoded as JPEG at quality 0.8 and sent
with the closure-captured mode.  `sendOk = false` models `socket.send`
throwing: the catch clause clears the in-flight flag and no message leaves. -/
def captureAndAnalyze (sendOk : Bool) (s : WSState) : WSState × List OutMessage :=
  match s.videoRef, s.canvasRef with
  | some v, some _ =>
    match s.socketRef with
    | some sock =>
      if sock.readyState = .opened then
        let ratio : ℚ := v.videoWidth / v.videoHeight
        let w : ℚ := targetHeight * ratio
        let s1 : WSState :=
          { s with isAnalyzing := true, canvasRef := some ⟨w, targetHeight⟩ }
        let msg : OutMessage :=
          ⟨⟨w, targetHeight, "image/jpeg", 8 / 10⟩, s.capturedMode.toWire⟩
        if sendOk then (s1, [msg]) else ({ s1 with isAnalyzing := false }, [])
      else (s, [])
    | none => (s, [])
  | _, _ => (s, [])

/-- `socket.onmessage` of the WebSocket revision.  A truthy `error` field
returns early; otherwise every result slot is overwritten with the payload
value or its `??` default, `fps` is updated only when `timing_ms.avg_fps` is
truthy, the result key is bumped and the in-flight flag cleared.  No field of
the payload other than those below is read; in particular no mode check is
performed. -/
def socketOnMessage (s : WSState) (data : InMessage) : WSState :=
  if truthyStr data.error then s
  else
    let s1 : WSState :=
      { s with
        detections := data.detections.getD []
        navigation := data.navigation.getD ""
        safeRatio := (data.safe_ratio).getD 0
        sceneDescription := data.summary.getD ""
        timingMs := data.timing_ms }
    let s2 : WSState :=
      match data.timing_ms with
      | some t =>
        match t.avg_fps with
        | some f => if f ≠ 0 then { s1 with fps := some f } else s1
        | none => s1
      | none => s1
    { s2 with resultKey := s2.resultKey + 1, isAnalyzing := false }

/-- Teardown effects emitted by `stopCamera` (WebSocket revision). -/
inductive TeardownAction
  | clearCaptureTimer
  | closeSocket
  | stopTracks (streamId : Nat)
deriving DecidableEq

/-- Whether a teardown action releases the capture device. -/
def TeardownAction.isStopTracks : TeardownAction → Bool
  | .stopTracks _ => true
  | _ => false

/-- Whether a teardown action closes the channel. -/
def TeardownAction.isCloseSocket : TeardownAction → Bool
  | .closeSocket => true
  | _ => false

/-- Whether a teardown action cancels the capture timer. -/
def TeardownAction.isClearTimer : TeardownAction → Bool
  | .clearCaptureTimer => true
  | _ => false

/-- `stopCamera` of the WebSocket revision: clear the interval if set and null
the ref, close the socket if set and null the ref, stop the media tracks
through optional chaining and null the ref, then leave the Live state.  Each
branch is guarded by its ref, so the function is total (never throws). -/
def stopCamera (s : WSState) : WSState × List TeardownAction :=
  let p1 : WSState × List TeardownAction :=
    match s.captureIntervalRef with
    | some _ => ({ s with captureIntervalRef := none }, [.clearCaptureTimer])
    | none => (s, [])
  let p2 : WSState × List TeardownAction :=
    match p1.1.socketRef with
    | some _ => ({ p1.1 with socketRef := none }, p1.2 ++ [.closeSocket])
    | none => p1
  let p3 : WSState × List TeardownAction :=
    match p2.1.streamRef with
    | some sid => ({ p2.1 with streamRef := none }, p2.2 ++ [.stopTracks sid])
    | none => p2
  ({ p3.1 with isCameraActive := false }, p3.2)

/-- Outcome of the asynchronous `getUserMedia` call inside `startCamera`. -/
inductive StartOutcome
  | granted (streamId : Nat)
  | denied (msg : String)
deriving DecidableEq

/-- External effects emitted by `startCamera`. -/
inductive StartAction
  | requestUserMedia
  | openWebSocket
  | toastError (text : String)
deriving DecidableEq

/-- `startCamera` of the WebSocket revision.  It unconditionally requests the
device (there is no check of `isCameraActive` and no AlreadyActive error).  On
success the new stream overwrites `streamRef`, the component becomes active
and a fresh WebSocket (initially Connecting) overwrites `socketRef`.  On
failure `camError` is set (`err.message || 'Camera unavailable'`) and a toast
is shown.  Either way `isLoading` ends false. -/
def startCamera (outcome : StartOutcome) (s : WSState) : WSState × List StartAction :=
  let s0 : WSState := { s with isLoading := true, camError := none }
  match outcome with
  | .granted sid =>
    ({ s0 with
        streamRef := some sid
        isCameraActive := true
        socketRef := some ⟨.connecting⟩
        isLoading := false },
      [.requestUserMedia, .openWebSocket])
  | .denied msg =>
    ({ s0 with
        camError := some (if msg = "" then "Camera unavailable" else msg)
        isLoading := false },
      [.requestUserMedia, .toastError "Camera access denied."])

/-- JSON body returned by `POST /process-frame` (on-demand revision).  Every
field the setter block reads is optional; a `mode` tag, when present, is
carried but never read. -/
structure ODResponse where
  error : Option String
  mode : Option String
  detections : Option (List Detection)
  navigation : Option String
  safe_ratio : Option ℚ
  scene_description : Option String
  caption : Option String
  depth_map : Option String
  free_mask : Option String
  urgent_count : Option Nat
  timing_ms : Option Timing
  urgent_alerts : Option (List String)
  all_alerts : Option (List String)
  navigation_spoken : Option String
  instruction : Option String
  left_clear : Option ℚ
  right_clear : Option ℚ
  center_clear : Option Bool
  road_clear : Option Bool
deriving DecidableEq

/-- React state of the on-demand revision (no socket, no interval; an extra
`lastFrameTs` ref drives the client-side FPS estimate). -/
structure ODState where
  isCameraActive : Bool
  isLoading : Bool
  isAnalyzing : Bool
  camError : Option String
  mode : Mode
  detections : List Detection
  navigation : String
  safeRatio : ℚ
  sceneDescription : String
  caption : String
  depthMap : String
  freeMask : String
  urgentCount : Nat
  timingMs : Option Timing
  fps : Option ℤ
  urgentAlerts : List String
  allAlerts : List String
  navSpoken : String
  instruction : String
  leftClear : ℚ
  rightClear : ℚ
  centerClear : Bool
  roadClear : Bool
  resultKey : Nat
  videoRef : Option Video
  canvasRef : Option Canvas
  streamRef : Option Nat
  lastFrameTs : Option ℚ
deriving DecidableEq

/-- Initial state of the on-demand component (`useState` initialisers, refs
null). -/
def initialODState : ODState where
  isCameraActive := false
  isLoading := false
  isAnalyzing := false
  camError := none
  mode := .surveillance
  detections := []
  navigation := ""
  safeRatio := 0
  sceneDescription := ""
  caption := ""
  depthMap := ""
  freeMask := ""
  urgentCount := 0
  timingMs := none
  fps := none
  urgentAlerts := []
  allAlerts := []
  navSpoken := ""
  instruction := ""
  leftClear := 0
  rightClear := 0
  centerClear := false
  roadClear := false
  resultKey := 0
  videoRef := none
  canvasRef := none
  streamRef := none
  lastFrameTs := none

/-- `Math.round`: round half toward positive infinity. -/
def jsRound (q : ℚ) : ℤ := ⌊q + 1 / 2⌋

/-- The shared and mode-specific setter block of the on-demand
`captureAndAnalyze`: each result slot receives the payload field or its `??`
default, and the result key is bumped. -/
def applyResponse (s : ODState) (data : ODResponse) : ODState :=
  { s with
    detections := data.detections.getD []
    navigation := data.navigation.getD ""
    safeRatio := (data.safe_ratio).getD 0
    sceneDescription := (data.scene_description).getD ""
    caption := data.caption.getD ""
    depthMap := (data.depth_map).getD ""
    freeMask := (data.free_mask).getD ""
    urgentCount := (data.urgent_count).getD 0
    timingMs := data.timing_ms
    urgentAlerts := (data.urgent_alerts).getD []
    allAlerts := (data.all_alerts).getD []
    navSpoken := (data.navigation_spoken).getD ""
    instruction := data.instruction.getD ""
    leftClear := (data.left_clear).getD 0
    rightClear := (data.right_clear).getD 0
    centerClear := (data.center_clear).getD false
    roadClear := (data.road_clear).getD false
    resultKey := s.resultKey + 1 }

/-- The multipart request built by the on-demand `captureAndAnalyze`: a JPEG
blob of the full video frame at quality 0.85 plus the current mode field. -/
structure ODRequest where
  width : ℚ
  height : ℚ
  quality : ℚ
  mode : String
deriving DecidableEq

/-- On-demand `captureAndAnalyze` (deps `[isAnalyzing, mode, addToast]`, so
`mode` is the current state).  Guard: refs present and not already analyzing;
an outstanding capture makes the call return with no request.  Then the flag
is set, the canvas takes the full video size, `toBlob` produces the JPEG
(`blobOk = false` models a null blob: the flag is cleared, nothing is sent)
and `/process-frame` is posted.  `response = none` models a fetch/parse
failure: the catch shows a toast and `finally` clears the flag.  On a
response, the FPS estimate is updated from `lastFrameTs`, the setter block
applies the payload and `finally` clears the flag. -/
def captureAndAnalyzeOD (now : ℚ) (blobOk : Bool) (response : Option ODResponse)
    (s : ODState) : ODState × List ODRequest :=
  match s.videoRef, s.canvasRef with
  | some v, some _ =>
    if s.isAnalyzing then (s, [])
    else
      let s1 : ODState :=
        { s with isAnalyzing := true
                 canvasRef := some ⟨v.videoWidth, v.videoHeight⟩ }
      if blobOk then
        let req : ODRequest :=
          ⟨v.videoWidth, v.videoHeight, 85 / 100, s.mode.toWire⟩
        match response with
        | some data =>
          let s2 : ODState :=
            match s1.lastFrameTs with
            | some t => { s1 with fps := some (jsRound (1000 / (now - t))) }
            | none => s1
          let s3 : ODState := { s2 with lastFrameTs := some now }
          let s4 : ODState := applyResponse s3 data
          ({ s4 with isAnalyzing := false }, [req])
        | none => ({ s1 with isAnalyzing := false }, [req])
      else ({ s1 with isAnalyzing := false }, [])
  | _, _ => (s, [])

/-- What the self-driving result panel of the on-demand revision displays:
the steering instruction, the lane-clearance percentages
`Math.round(x * 100)` and the centre badge.  The panel is rendered only when
the current mode is self_driving. -/
structure SelfDrivingDisplay where
  steering : String
  leftPct : ℤ
  rightPct : ℤ
  safePct : ℤ
  centerClear : Bool
  roadClear : Bool
deriving DecidableEq

/-- Render function of the self-driving panel. -/
def selfDrivingPanel (s : ODState) : Option SelfDrivingDisplay :=
  if s.mode = .self_driving then
    some
      ⟨s.instruction, jsRound (s.leftClear * 100), jsRound (s.rightClear * 100),
        jsRound (s.safeRatio * 100), s.centerClear, s.roadClear⟩
  else none

/-! Concrete states used to evaluate the model. -/

/-- A 1280×720 video element, the resolution hint of `getUserMedia`. -/
def demoVideo : Video := ⟨1280, 720⟩

/-- A WebSocket-revision state in the Live phase: device acquired, refs
attached, socket open, the 2000 ms sampler installed. -/
def liveWSState : WSState :=
  { initialWSState with
      isCameraActive := true
      streamRef := some 1
      socketRef := some ⟨.opened⟩
      captureIntervalRef := some CAPTURE_INTERVAL_MS
      videoRef := some demoVideo
      canvasRef := some ⟨0, 0⟩ }

/-- A sample detection. -/
def demoDetection : Detection :=
  ⟨"person", 92 / 100, "Center", "Middle", "Near", "High", true, "person ahead"⟩

/-- An inbound payload with every expected field missing. -/
def emptyInMessage : InMessage :=
  { error := none, mode := none, detections := none, navigation := none,
    safe_ratio := none, summary := none, timing_ms := none }

/-- An inbound payload tagged with a mode that differs from liveWSState's
surveillance selection, carrying a navigation value. -/
def mismatchedResult : InMessage :=
  { emptyInMessage with mode := some "assistive", navigation := some "Move Forward" }

/-- The inbound self-driving payload of Scenario B. -/
def selfDrivingStop : ODResponse :=
  { error := none, mode := some "self_driving", detections := none,
    navigation := none, safe_ratio := none, scene_description := none,
    caption := none, depth_map := none, free_mask := none, urgent_count := none,
    timing_ms := none, urgent_alerts := none, all_alerts := none,
    navigation_spoken := none, instruction := some "Stop",
    left_clear := some (9 / 10), right_clear := some (1 / 10),
    center_clear := some false, road_clear := none }

/-! Claim theorems. -/

/-- C1.  Evaluation at the failing input: in the Live state, after
`setMode(assistive)`, the next sampler tick still produces exactly one
outgoing request, but its mode tag is "surveillance" — the mode read by the
memoised tick callback is the one captured at its creation, so the change of
ModeSelection is never observed by the WebSocket revision's outgoing
requests. -/
theorem c1_setMode_tick_sends_stale_mode :
    (setMode .assistive liveWSState).mode = Mode.assistive ∧
    (captureAndAnalyze true (setMode .assistive liveWSState)).2.map OutMessage.mode
      = ["surveillance"] ∧
    Mode.toWire .assistive ≠ "surveillance" := by
  refine ⟨rfl, rfl, ?_⟩
  decide

/-- C2, as stated, is false on the WebSocket revision: a sampler tick fired in
a Live state whose in-flight flag is set still produces one outgoing request —
`captureAndAnalyze` never reads `isAnalyzing`. -/
theorem c2_ws_tick_not_gated :
    ({ liveWSState with isAnalyzing := true }).isAnalyzing = true ∧
    (captureAndAnalyze true { liveWSState with isAnalyzing := true }).2.length = 1 :=
  ⟨rfl, rfl⟩

/-- C2, amended.  The non-reentrancy guard exists in the on-demand variant
only: a capture triggered while `isAnalyzing` is set returns immediately,
producing zero requests and leaving the state unchanged. -/
theorem c2_od_capture_dropped_while_analyzing (now : ℚ) (blobOk : Bool)
    (response : Option ODResponse) (s : ODState) (h : s.isAnalyzing = true) :
    captureAndAnalyzeOD now blobOk response s = (s, []) := by
  rcases hv : s.videoRef with _ | v <;> rcases hc : s.canvasRef with _ | c <;>
    simp [captureAndAnalyzeOD, hv, hc, h]

/-- C2 witness: a concrete on-demand state with the in-flight flag set drops
the capture. -/
theorem c2_od_capture_dropped_while_analyzing_witness :
    captureAndAnalyzeOD 0 true none
        { initialODState with
            isAnalyzing := true
            videoRef := some demoVideo
            canvasRef := some ⟨0, 0⟩ }
      = ({ initialODState with
            isAnalyzing := true
            videoRef := some demoVideo
            canvasRef := some ⟨0, 0⟩ }, []) :=
  c2_od_capture_dropped_while_analyzing 0 true none _ rfl

/-- C3, as stated, is false: an inbound result tagged "assistive" while the
active ModeSelection is surveillance is not discarded — it overwrites the
navigation display slot. -/
theorem c3_mode_mismatch_overwrites :
    ({ liveWSState with navigation := "Obstacle Ahead" }).mode = Mode.surveillance ∧
    mismatchedResult.mode = some "assistive" ∧
    (socketOnMessage { liveWSState with navigation := "Obstacle Ahead" }
        mismatchedResult).navigation = "Move Forward" :=
  ⟨rfl, rfl, rfl⟩

/-- C3, amended.  The WebSocket reconciler performs no mode check at all: the
handler is insensitive to the payload's mode tag, so mode-mismatched results
overwrite the display slots exactly like matching ones (filtering happens
only at render time, where panels are keyed by the current mode). -/
theorem c3_reconciler_ignores_mode_tag (s : WSState) (data : InMessage)
    (m : Option String) :
    socketOnMessage s { data with mode := m } = socketOnMessage s data := by
  cases data
  rfl

/-- C4.  `stopCamera` from any state reaches the Idle shape (camera inactive,
all three resources nulled); a second call returns the same state with no
further actions; and across the two calls the timer is cancelled, the channel
closed and the device released exactly once each (exactly when the resource
was held). -/
theorem c4_stop_idempotent_release_once (s : WSState) :
    ((stopCamera s).1.isCameraActive = false ∧
      (stopCamera s).1.captureIntervalRef = none ∧
      (stopCamera s).1.socketRef = none ∧
      (stopCamera s).1.streamRef = none) ∧
    stopCamera (stopCamera s).1 = ((stopCamera s).1, []) ∧
    ((stopCamera s).2 ++ (stopCamera (stopCamera s).1).2).countP
        TeardownAction.isClearTimer
      = (if s.captureIntervalRef.isSome then 1 else 0) ∧
    ((stopCamera s).2 ++ (stopCamera (stopCamera s).1).2).countP
        TeardownAction.isCloseSocket
      = (if s.socketRef.isSome then 1 else 0) ∧
    ((stopCamera s).2 ++ (stopCamera (stopCamera s).1).2).countP
        TeardownAction.isStopTracks
      = (if s.streamRef.isSome then 1 else 0) := by
  obtain ⟨a, b, c, d, e, f, g, h, i, j, k, l, m, n, o, str, sock, tim⟩ := s
  rcases tim with _ | tv <;> rcases sock with _ | sv <;> rcases str with _ | strv <;>
    exact ⟨⟨rfl, rfl, rfl, rfl⟩, rfl, rfl, rfl, rfl⟩

/-- C5, as stated, is false: calling `startCamera` while the component is
already Live (stream 1 held) is not rejected — no error is raised, the
effects show a fresh device acquisition, and the new stream 2 overwrites the
held one. -/
theorem c5_start_while_live_not_rejected :
    liveWSState.isCameraActive = true ∧
    liveWSState.streamRef = some 1 ∧
    (startCamera (.granted 2) liveWSState).2
      = [.requestUserMedia, .openWebSocket] ∧
    (startCamera (.granted 2) liveWSState).1.streamRef = some 2 ∧
    (startCamera (.granted 2) liveWSState).1.camError = none :=
  ⟨rfl, rfl, rfl, rfl, rfl⟩

/-- C5, amended.  `startCamera` has no AlreadyActive guard: whatever the
current state — Live included — a successful call requests the device, stores
the new stream over `streamRef` without releasing any previous one, and
reports no error.  Only the UI avoids the double acquisition, by not
rendering the start control while live. -/
theorem c5_start_unguarded (s : WSState) (sid : Nat) :
    (startCamera (.granted sid) s).2 = [.requestUserMedia, .openWebSocket] ∧
    (startCamera (.granted sid) s).1.streamRef = some sid ∧
    (startCamera (.granted sid) s).1.isCameraActive = true ∧
    (startCamera (.granted sid) s).1.camError = none :=
  ⟨rfl, rfl, rfl, rfl⟩

/-- C6.  A tick fired while the channel is not Open (absent socket, or any
readyState other than OPEN, Closing included) produces no outgoing request,
changes nothing and cannot throw: the tick simply returns, leaving the
sampler ready for its next tick. -/
theorem c6_send_only_when_open (sendOk : Bool) (s : WSState)
    (h : channelOpen s = false) :
    captureAndAnalyze sendOk s = (s, []) := by
  rcases hv : s.videoRef with _ | v <;> rcases hc : s.canvasRef with _ | c <;>
    rcases hs : s.socketRef with _ | sock <;>
      simp_all [captureAndAnalyze, channelOpen]

/-- C6 witness: a Live state whose socket has moved to Closing drops the
frame. -/
theorem c6_send_only_when_open_witness :
    channelOpen { liveWSState with socketRef := some ⟨.closing⟩ } = false ∧
    captureAndAnalyze true { liveWSState with socketRef := some ⟨.closing⟩ }
      = ({ liveWSState with socketRef := some ⟨.closing⟩ }, []) :=
  ⟨rfl, c6_send_only_when_open true _ rfl⟩

/-- C7.  With the refs attached and the channel open, a sampler tick emits
exactly one message whose fields are the encoded frame and the mode tag; the
frame is a JPEG at quality 0.8 whose height is the 480 px target and whose
width is the target height times the video's aspect ratio; and the cadence
installed by `socket.onopen` is one tick every 2000 ms. -/
theorem c7_tick_frame_format (s : WSState) (v : Video)
    (hv : s.videoRef = some v) (hc : s.canvasRef.isSome = true)
    (ho : channelOpen s = true) :
    (captureAndAnalyze true s).2
      = [⟨⟨targetHeight * (v.videoWidth / v.videoHeight), targetHeight,
            "image/jpeg", 8 / 10⟩, s.capturedMode.toWire⟩] ∧
    targetHeight = 480 ∧
    (socketOnOpen s).captureIntervalRef = some CAPTURE_INTERVAL_MS ∧
    CAPTURE_INTERVAL_MS = 2000 := by
  rcases hcc : s.canvasRef with _ | c
  · rw [hcc] at hc; exact absurd hc (by decide)
  · rcases hs : s.socketRef with _ | sock
    · rw [channelOpen, hs] at ho; exact absurd ho (by decide)
    · refine ⟨?_, rfl, rfl, rfl⟩
      rw [channelOpen, hs] at ho
      simp only [beq_iff_eq] at ho
      simp [captureAndAnalyze, hv, hcc, hs, ho]

/-- C7 witness: the Live demo state emits the 480-height frame at the 16:9
ratio of the 1280×720 device, tagged with the captured mode. -/
theorem c7_tick_frame_format_witness :
    (captureAndAnalyze true liveWSState).2
      = [⟨⟨targetHeight * (demoVideo.videoWidth / demoVideo.videoHeight),
            targetHeight, "image/jpeg", 8 / 10⟩,
          liveWSState.capturedMode.toWire⟩] ∧
    targetHeight = 480 ∧
    (socketOnOpen liveWSState).captureIntervalRef = some CAPTURE_INTERVAL_MS ∧
    CAPTURE_INTERVAL_MS = 2000 :=
  c7_tick_frame_format liveWSState demoVideo rfl rfl rfl

/-- C8.  Applying the Scenario B self-driving payload (instruction "Stop",
left_clear 0.9, right_clear 0.1, center_clear false) while the self_driving
mode is active displays steering "Stop", a left clearance of 90 %, a right
clearance of 10 % and a blocked centre. -/
theorem c8_selfdriving_mapping :
    selfDrivingPanel
        (applyResponse { initialODState with mode := .self_driving } selfDrivingStop)
      = some ⟨"Stop", 90, 10, 0, false, false⟩ := by
  simp only [selfDrivingPanel, applyResponse, selfDrivingStop, initialODState, jsRound]
  norm_num

/-- C9, as stated, is false: a well-formed inbound payload with every expected
field missing does not leave the previous display state unchanged — the
detections slot is cleared and the navigation slot emptied. -/
theorem c9_missing_fields_overwrite :
    ({ liveWSState with
        detections := [demoDetection]
        navigation := "Obstacle Ahead" }).detections = [demoDetection] ∧
    (socketOnMessage
        { liveWSState with
            detections := [demoDetection]
            navigation := "Obstacle Ahead" } emptyInMessage).detections = [] ∧
    (socketOnMessage
        { liveWSState with
            detections := [demoDetection]
            navigation := "Obstacle Ahead" } emptyInMessage).navigation = "" :=
  ⟨rfl, rfl, rfl⟩

/-- C9, amended.  A result with every expected field missing is not skipped:
each slot is overwritten with its `??` default (empty list, empty string,
zero, null).  The failure is indeed non-fatal — the handler completes, keeps
`fps`, bumps the result key and clears the in-flight flag, so the loop
continues. -/
theorem c9_missing_fields_defaulted (s : WSState) :
    socketOnMessage s emptyInMessage
      = { s with
            detections := []
            navigation := ""
            safeRatio := 0
            sceneDescription := ""
            timingMs := none
            resultKey := s.resultKey + 1
            isAnalyzing := false } := by
  cases s
  rfl

/-- C10, as stated, is false: a payload that contains an `error` field holding
the empty string is falsy in the guard, so the handler does not return early —
it overwrites the display slots and clears the in-flight flag. -/
theorem c10_falsy_error_string_updates_state :
    ({ emptyInMessage with error := some "" }).error = some "" ∧
    (socketOnMessage
        { liveWSState with detections := [demoDetection], isAnalyzing := true }
        { emptyInMessage with error := some "" }).detections = [] ∧
    (socketOnMessage
        { liveWSState with detections := [demoDetection], isAnalyzing := true }
        { emptyInMessage with error := some "" }).isAnalyzing = false :=
  ⟨rfl, rfl, rfl⟩

/-- C10, amended.  For every inbound message whose `error` field is truthy (a
non-empty string), the handler returns early: every display-state field is
left unchanged and the in-flight flag is not cleared — it remains set until a
non-error result arrives. -/
theorem c10_truthy_error_early_return (s : WSState) (data : InMessage)
    (e : String) (he : data.error = some e) (hne : e ≠ "") :
    socketOnMessage s data = s := by
  rw [socketOnMessage, he]
  simp [truthyStr, hne]

/-- C10 witness: a concrete truthy error payload leaves the Analyzing Live
state untouched. -/
theorem c10_truthy_error_early_return_witness :
    socketOnMessage { liveWSState with isAnalyzing := true }
        { emptyInMessage with error := some "Bad frame" }
      = { liveWSState with isAnalyzing := true } :=
  c10_truthy_error_early_return _ _ "Bad frame" rfl (by decide)

end IntelliVision
